import Mathlib

/-!
Verification development for the Selam Islamic School Results bot
(src/bot.py). The Python source is shallowly embedded below: the two
database tables become lists of rows, each SQL statement becomes an
explicit state transformation, the random stream feeding
secrets.randbelow(1000000) becomes an explicit list of draws, and the
possibility that a database statement raises becomes an explicit
boolean failure flag. Theorems about the embedded definitions follow
the definitions.
-/

namespace SelamBot

/-- School level enum from bot.py (class SchoolLevel). -/
inductive SchoolLevel
  | ELEMENTARY
  | MIDDLE
  deriving DecidableEq, Repr

/-- String value of the enum member, as in SchoolLevel.ELEMENTARY.value. -/
def SchoolLevel.value : SchoolLevel → String
  | .ELEMENTARY => "elementary"
  | .MIDDLE => "middle"

/-- Row of the users table created by init_db: columns user_id (PK),
grade_section, student_no, pin, language (DEFAULT 'en'), school_level.
Nullable TEXT columns are Option String; the school_level column only
ever holds an enum value or NULL in this system, so it is stored as
Option SchoolLevel. The registered_at timestamp column is not read by
any embedded code path and is omitted. -/
structure UserRow where
  user_id : String
  grade_section : Option String
  student_no : Option String
  pin : Option String
  language : String
  school_level : Option SchoolLevel
  deriving DecidableEq, Repr

/-- Row of the student_identifiers table created by init_db: columns
pin (PK), grade_section, student_no, telegram_id, school_level. -/
structure IdentifierRow where
  pin : String
  grade_section : String
  student_no : String
  telegram_id : String
  school_level : String
  deriving DecidableEq, Repr

/-- Database state: the two tables created by init_db. -/
structure DB where
  users : List UserRow
  student_identifiers : List IdentifierRow
  deriving DecidableEq, Repr

/-- The list of PIN values currently present in student_identifiers. -/
def DB.pins (db : DB) : List String :=
  db.student_identifiers.map (fun r => r.pin)

/-- SELECT ... FROM users WHERE user_id=%s : the rows of users matching
the given user id. -/
def usersWhere (db : DB) (uid : String) : List UserRow :=
  db.users.filter (fun r => r.user_id == uid)

/-- get_user_language from bot.py: SELECT language FROM users WHERE
user_id=%s, returning the first row value if any row exists and the
default tag en otherwise. -/
def get_user_language (db : DB) (uid : String) : String :=
  match usersWhere db uid with
  | r :: _ => r.language
  | [] => "en"

/-- get_user_school_level from bot.py: SELECT school_level FROM users
WHERE user_id=%s, returning SchoolLevel(result[0][0]) if a row exists
and None otherwise. The Python constructor call raises on a value that
is not a valid enum string; the school_level column is modelled as
Option SchoolLevel so that case cannot arise here. -/
def get_user_school_level (db : DB) (uid : String) : Option SchoolLevel :=
  match usersWhere db uid with
  | r :: _ => r.school_level
  | [] => none

/-- Terms recognised by the column mappings. -/
inductive Term
  | S1
  | S2
  | Ave
  deriving DecidableEq, Repr

/-- Column mapping for one (school level, term): the dictionaries of
class ColumnMapping in bot.py. The conduct and remark keys are present
only for some terms, hence Option. -/
structure Mapping where
  student_no : Nat
  name : Nat
  sex : Nat
  age : Nat
  subjects : List Nat
  conduct : Option Nat
  sum : Nat
  average : Nat
  rank : Nat
  remark : Option Nat
  deriving DecidableEq, Repr

/-- ColumnMapping.ELEMENTARY from bot.py. -/
def ColumnMapping.ELEMENTARY : Term → Mapping
  | .S1 => ⟨1, 3, 4, 5, [6, 7, 8, 9, 10, 11, 12, 13], some 14, 15, 16, 17, none⟩
  | .S2 => ⟨1, 3, 4, 5, [6, 7, 8, 9, 10, 11, 12, 13], some 14, 15, 16, 17, none⟩
  | .Ave => ⟨1, 2, 3, 4, [5, 6, 7, 8, 9, 10, 11, 12], none, 13, 14, 15, some 16⟩

/-- ColumnMapping.MIDDLE from bot.py. -/
def ColumnMapping.MIDDLE : Term → Mapping
  | .S1 => ⟨1, 3, 4, 5, [6, 7, 8, 9, 10, 11, 12, 13, 14, 15, 16], some 17, 18, 19, 20, none⟩
  | .S2 => ⟨1, 3, 4, 5, [6, 7, 8, 9, 10, 11, 12, 13, 14, 15, 16], some 17, 18, 19, 20, none⟩
  | .Ave => ⟨1, 2, 3, 4, [5, 6, 7, 8, 9, 10, 11, 12, 13, 14, 15], none, 16, 17, 18, some 19⟩

/-- Column mapping selected by school level and term. -/
def columnMapping : SchoolLevel → Term → Mapping
  | .ELEMENTARY => ColumnMapping.ELEMENTARY
  | .MIDDLE => ColumnMapping.MIDDLE

/-- Supported language tags of the subject catalogs and messages. -/
inductive Lang
  | en
  | am
  deriving DecidableEq, Repr

/-- Subjects.ELEMENTARY from bot.py. -/
def Subjects.ELEMENTARY : Lang → List String
  | .en => ["Amharic", "English", "Arabic", "Maths", "E.S", "Moral Edu", "Art", "HPE"]
  | .am => ["አማርኛ", "እንግሊዝኛ", "አረብኛ", "ሒሳብ", "ኢ.ኤስ", "ሥነ ምግባር ትምህርት", "ሥነ ጥበብ", "ኤች.ፒ.ኢ"]

/-- Subjects.MIDDLE from bot.py. -/
def Subjects.MIDDLE : Lang → List String
  | .en => ["Amharic", "English", "Arabic", "Maths", "General Science", "Geography",
            "Citizenship", "CTE", "ICT", "Art", "HPE"]
  | .am => ["አማርኛ", "እንግሊዝኛ", "አረብኛ", "ሒሳብ", "አጠቃላይ ሳይንስ", "ጂኦግራፊ",
            "ዜግነት", "ሲ.ቲ.ኢ", "አይ.ሲ.ቲ", "ሥነ ጥበብ", "ኤች.ፒ.ኢ"]

/-- Subject catalog selected by school level and language tag. -/
def subjectCatalog : SchoolLevel → Lang → List String
  | .ELEMENTARY => Subjects.ELEMENTARY
  | .MIDDLE => Subjects.MIDDLE

/-- Value held by a spreadsheet cell as read through openpyxl. -/
inductive CellValue
  | str (s : String)
  | num (n : Int)
  deriving DecidableEq, Repr

/-- Cell argument of get_value: none models a missing or falsy cell
object, some none a cell whose value attribute is null, and
some (some v) a cell holding the value v. openpyxl cell objects always
have a value attribute, so the hasattr guard in the source is true for
every present cell. -/
abbrev Cell := Option (Option CellValue)

/-- get_value from bot.py: cell.value if the cell is present and its
value is not None, else the sentinel string N/A. -/
def get_value (cell : Cell) : CellValue :=
  match cell with
  | some (some v) => v
  | _ => .str "N/A"

/-- Zero-padded 6-digit formatting, f-string 06d in bot.py applied to a
value below 1000000. -/
def zpad6 (n : Nat) : String :=
  let s := toString n
  String.mk (List.replicate (6 - s.length) '0') ++ s

/-- Retry loop body of generate_unique_pin: walk the remaining random
draws, format each as a candidate PIN, and return the first candidate
for which SELECT pin FROM student_identifiers WHERE pin=%s fetches no
row. Returns none when the draws are exhausted, which in the source is
the ValueError raised after max_attempts. -/
def genPinLoop (db : DB) : List (Fin 1000000) → Option String
  | [] => none
  | n :: rest =>
    let pin := zpad6 n.val
    if (db.student_identifiers.filter (fun r => r.pin == pin)).isEmpty then
      some pin
    else
      genPinLoop db rest

/-- generate_unique_pin from bot.py: up to max_attempts = 100 draws of
secrets.randbelow(1000000), each checked against the identifier store;
rand is the stream of random draws consumed. -/
def generate_unique_pin (db : DB) (rand : List (Fin 1000000)) : Option String :=
  genPinLoop db (rand.take 100)

/-- INSERT INTO student_identifiers (pin, grade_section, student_no,
telegram_id, school_level) VALUES ... as issued by register_user. -/
def sqlInsertIdentifier (db : DB) (pin gs sn uid lvl : String) : DB :=
  { db with student_identifiers := db.student_identifiers ++ [⟨pin, gs, sn, uid, lvl⟩] }

/-- UPDATE users SET grade_section=%s, student_no=%s, pin=%s WHERE
user_id=%s as issued by register_user; rows not matching the user id
are untouched, and the statement is a no-op when no row matches. -/
def sqlUpdateUser (db : DB) (gs sn pin uid : String) : DB :=
  { db with users := db.users.map (fun r =>
      if r.user_id == uid then
        { r with grade_section := some gs, student_no := some sn, pin := some pin }
      else r) }

/-- Outcome of the persistence block of register_user. -/
inductive PersistReply
  | success (pin : String)
  | failed
  deriving DecidableEq, Repr

/-- The try/except block of register_user (PIN generation, identifier
insert, user update). Each db_execute call opens its own connection and
commits independently, so the two writes are separate transactions; the
flags insertFails and updateFails model the corresponding statement
raising, which the except branch turns into the failure reply. A raise
during a statement prevents that statement's commit but cannot undo an
earlier, already committed statement. -/
def register_persist (db : DB) (uid gs sn : String) (lvl : SchoolLevel)
    (rand : List (Fin 1000000)) (insertFails updateFails : Bool) :
    PersistReply × DB :=
  match generate_unique_pin db rand with
  | none => (.failed, db)
  | some pin =>
    if insertFails then
      (.failed, db)
    else
      let db1 := sqlInsertIdentifier db pin gs sn uid lvl.value
      if updateFails then
        (.failed, db1)
      else
        (.success pin, sqlUpdateUser db1 gs sn pin uid)

/-- User-visible outcome of the register_user handler, one constructor
per reply message of the source. -/
inductive RegReply
  | noSchoolLevel
  | usage
  | invalidSection
  | invalidStudentNumber
  | alreadyRegistered
  | success (pin : String)
  | failed
  deriving DecidableEq, Repr

/-- Valid grade sections for elementary school, inline list in
register_user. -/
def elementary_valid_sections : List String :=
  ["1A", "1B", "1C", "2A", "2B", "2C", "3A", "3B", "4A", "4B", "5A", "5B", "6A", "6B"]

/-- Valid grade sections for middle school, inline list in
register_user. -/
def middle_valid_sections : List String :=
  ["7A", "7B", "8A", "8B"]

/-- ASCII digit test and value of one character. -/
def charDigit? (c : Char) : Option Nat :=
  if 48 ≤ c.toNat && c.toNat ≤ 57 then some (c.toNat - 48) else none

/-- Decimal parse of a nonempty all-digit string: some n exactly when
the string is nonempty and every character is a digit. This is the
semantics of student_no.isdigit() followed by int(student_no) on ASCII
input. -/
def parseNat? (s : String) : Option Nat :=
  match s.data with
  | [] => none
  | cs =>
    cs.foldl
      (fun acc c =>
        match acc, charDigit? c with
        | some n, some d => some (10 * n + d)
        | _, _ => none)
      (some 0)

/-- Student number validation of register_user: student_no.isdigit()
and 1 <= int(student_no) <= 60. -/
def valid_student_no (s : String) : Bool :=
  match parseNat? s with
  | some n => decide (1 ≤ n) && decide (n ≤ 60)
  | none => false

/-- register_user from bot.py, acting on the database state. args is
message.text.split(); rand is the random stream feeding PIN
generation; insertFails and updateFails model statement failures in
the persistence block. The checks run in source order: school level
lookup, argument count, section validity, student number validity, the
already-registered check (truthiness of the fetched row list), then the
try/except persistence block. -/
def register_user (db : DB) (uid : String) (args : List String)
    (rand : List (Fin 1000000)) (insertFails updateFails : Bool) :
    RegReply × DB :=
  match get_user_school_level db uid with
  | none => (.noSchoolLevel, db)
  | some school_level =>
    match args with
    | [_, grade_section, student_no] =>
      let valid_sections :=
        if school_level = SchoolLevel.ELEMENTARY then elementary_valid_sections
        else middle_valid_sections
      if grade_section ∈ valid_sections then
        if valid_student_no student_no then
          if (usersWhere db uid).isEmpty then
            match register_persist db uid grade_section student_no school_level
                rand insertFails updateFails with
            | (.success pin, db') => (.success pin, db')
            | (.failed, db') => (.failed, db')
          else
            (.alreadyRegistered, db)
        else
          (.invalidStudentNumber, db)
      else
        (.invalidSection, db)
    | _ => (.usage, db)

/-- Modelled from the spec: findByPin(pin) -> IdentifierRecord or
absent. The login flow that reads student_identifiers by PIN is not
part of this source file; the lookup is the natural SELECT on the
primary key, mirroring the WHERE pin=%s query that generate_unique_pin
issues. -/
def find_by_pin (db : DB) (pin : String) : Option IdentifierRow :=
  (db.student_identifiers.filter (fun r => r.pin == pin)).head?

/-- Config.RATE_LIMIT max_attempts. -/
def RATE_LIMIT_max_attempts : Nat := 5

/-- Config.RATE_LIMIT period in seconds. -/
def RATE_LIMIT_period : Int := 60

/-- Rate limiter state: the user_attempts defaultdict(list), one
timestamp list per identity, missing keys reading as the empty list.
Timestamps are integers standing for seconds. -/
abbrev RLState := String → List Int

/-- Initial rate limiter state: the empty defaultdict. -/
def rlInit : RLState := fun _ => []

/-- is_rate_limited from bot.py at an explicit current time: drop the
stored timestamps outside the 60-second window, store the survivors
back, return True (blocked) when at least max_attempts survive, and
otherwise append the current time and return False (allowed). -/
def is_rate_limited (st : RLState) (uid : String) (now : Int) :
    Bool × RLState :=
  let attempts := (st uid).filter (fun t => now - t < RATE_LIMIT_period)
  if RATE_LIMIT_max_attempts ≤ attempts.length then
    (true, Function.update st uid attempts)
  else
    (false, Function.update st uid (attempts ++ [now]))

/-- Run a sequence of rate-limit checks, collecting each call's result
(true means blocked) and threading the state. -/
def runLimiter (st : RLState) : List (String × Int) → List Bool × RLState
  | [] => ([], st)
  | (uid, now) :: rest =>
    let r := is_rate_limited st uid now
    let rs := runLimiter r.2 rest
    (r.1 :: rs.1, rs.2)

/-- Arguments of one invocation of the persistence block of
register_user: the identity, the validated grade section and student
number, the school level, the random draws consumed by PIN generation
and the two statement-failure flags. -/
structure PersistCall where
  uid : String
  grade_section : String
  student_no : String
  level : SchoolLevel
  rand : List (Fin 1000000)
  insertFails : Bool
  updateFails : Bool

/-- Run a sequence of persistence-block invocations, threading the
database state. -/
def runPersistCalls (db : DB) : List PersistCall → DB
  | [] => db
  | c :: rest =>
    runPersistCalls
      (register_persist db c.uid c.grade_section c.student_no c.level
        c.rand c.insertFails c.updateFails).2 rest

/-- Database state of an identity u1 that has recorded school level
middle and has no prior registration: exactly the state the school
level selection step leaves behind (users row present, registration
columns NULL, identifier store empty). -/
def dbSchoolLevelOnly : DB :=
  { users := [⟨"u1", none, none, none, "en", some SchoolLevel.MIDDLE⟩],
    student_identifiers := [] }

/-- Database state of an identity u1 that has completed a successful
registration: users row with grade section, student number and PIN
set, and the matching identifier row present. -/
def dbRegisteredU1 : DB :=
  { users := [⟨"u1", some "7A", some "10", some "123456", "en", some SchoolLevel.MIDDLE⟩],
    student_identifiers := [⟨"123456", "7A", "10", "u1", "middle"⟩] }

/-! Helper lemmas shared by the claim theorems. -/

/-- A recorded school level comes from a users row, so the row list
fetched by the already-registered check of register_user is nonempty. -/
lemma usersWhere_isEmpty_eq_false {db : DB} {uid : String} {lvl : SchoolLevel}
    (h : get_user_school_level db uid = some lvl) :
    (usersWhere db uid).isEmpty = false := by
  unfold get_user_school_level at h
  cases hw : usersWhere db uid with
  | nil => rw [hw] at h; cases h
  | cons r t => rfl

/-- Whenever the school level lookup succeeds and the arguments pass
validation, register_user takes the already-registered branch: the
school level can only come from an existing users row, and the
already-registered check tests bare row existence. -/
lemma register_with_recorded_level_already_registered
    (db : DB) (uid cmd gs sn : String) (rand : List (Fin 1000000))
    (iF uF : Bool) (lvl : SchoolLevel)
    (hlvl : get_user_school_level db uid = some lvl)
    (hgs : gs ∈ (if lvl = SchoolLevel.ELEMENTARY then elementary_valid_sections
                 else middle_valid_sections))
    (hsn : valid_student_no sn = true) :
    register_user db uid [cmd, gs, sn] rand iF uF = (RegReply.alreadyRegistered, db) := by
  have hne := usersWhere_isEmpty_eq_false hlvl
  unfold register_user
  rw [hlvl]
  simp [hgs, hsn, hne]

/-- C7: for every school level in elementary/middle, every term in
S1/S2/Ave and every supported language tag in en/am, the number of
subject columns in the column mapping equals the number of subject
names in the subject catalog, namely 8 for elementary and 11 for
middle. -/
theorem column_mapping_subject_counts :
    ∀ (lvl : SchoolLevel) (term : Term) (lang : Lang),
      (columnMapping lvl term).subjects.length = (subjectCatalog lvl lang).length ∧
      (subjectCatalog lvl lang).length =
        (match lvl with | .ELEMENTARY => 8 | .MIDDLE => 11) := by
  intro lvl term lang
  cases lvl <;> cases term <;> cases lang <;> exact ⟨rfl, rfl⟩

/-- C9: cell value extraction is total; it returns the cell value when
the cell is present with a non-null value, and the sentinel string N/A
when the cell is absent or its value is null. -/
theorem get_value_total_sentinel :
    ∀ cell : Cell,
      (∀ v : CellValue, cell = some (some v) → get_value cell = v) ∧
      (cell = none ∨ cell = some none → get_value cell = CellValue.str "N/A") := by
  intro cell
  constructor
  · intro v hv
    subst hv
    rfl
  · intro h
    rcases h with h | h <;> subst h <;> rfl

/-- Witness for C9 at concrete cells: a present numeric cell returns
its value and an absent cell returns the sentinel. -/
theorem get_value_total_sentinel_witness :
    get_value (some (some (CellValue.num 42))) = CellValue.num 42 ∧
    get_value (none : Cell) = CellValue.str "N/A" :=
  ⟨(get_value_total_sentinel (some (some (CellValue.num 42)))).1 (CellValue.num 42) rfl,
   (get_value_total_sentinel (none : Cell)).2 (Or.inl rfl)⟩

/-- C10: for an identity with no row in the users table, the language
lookup returns the default tag en rather than an absent or error
result. -/
theorem get_user_language_default_en (db : DB) (uid : String)
    (h : usersWhere db uid = []) : get_user_language db uid = "en" := by
  unfold get_user_language
  rw [h]

/-- Witness for C10: in a store holding only an unrelated identity u2,
the lookup for u1 finds no row and returns en. -/
theorem get_user_language_default_en_witness :
    usersWhere ⟨[⟨"u2", none, none, none, "am", some SchoolLevel.MIDDLE⟩], []⟩ "u1" = [] ∧
    get_user_language ⟨[⟨"u2", none, none, none, "am", some SchoolLevel.MIDDLE⟩], []⟩ "u1" = "en" :=
  ⟨by decide,
   get_user_language_default_en ⟨[⟨"u2", none, none, none, "am", some SchoolLevel.MIDDLE⟩], []⟩
     "u1" (by decide)⟩

/-- C5: the claim says registration succeeds here, but the code makes
success unreachable: whenever identity u1 has recorded school level
middle (which requires a users row to exist), the register command
with section 7A and student number 10 hits the already-registered
check, which tests bare row existence, and replies already registered
with no state change — it never returns a PIN. -/
theorem register_u1_middle_never_succeeds (db : DB) (rand : List (Fin 1000000))
    (iF uF : Bool)
    (h : get_user_school_level db "u1" = some SchoolLevel.MIDDLE) :
    register_user db "u1" ["/register", "7A", "10"] rand iF uF
      = (RegReply.alreadyRegistered, db) :=
  register_with_recorded_level_already_registered db "u1" "/register" "7A" "10"
    rand iF uF SchoolLevel.MIDDLE h (by decide) (by decide)

/-- Witness for C5 at the concrete state the scenario describes: u1
has school level middle recorded and no prior registration, and the
register command is refused as already registered. -/
theorem register_u1_middle_never_succeeds_witness :
    get_user_school_level dbSchoolLevelOnly "u1" = some SchoolLevel.MIDDLE ∧
    register_user dbSchoolLevelOnly "u1" ["/register", "7A", "10"] [] false false
      = (RegReply.alreadyRegistered, dbSchoolLevelOnly) :=
  ⟨by decide,
   register_u1_middle_never_succeeds dbSchoolLevelOnly [] false false (by decide)⟩

/-- C1: the claim presupposes a successful register, but at the very
state its hypotheses describe (a fresh identity u1 with recorded
school level middle and an empty identifier store, a valid triple
middle/7A/10) the code replies already registered, inserts nothing,
and leaves no PIN to look up: the identifier store stays empty, so
every PIN lookup returns absent. -/
theorem register_then_findByPin_bug :
    register_user dbSchoolLevelOnly "u1" ["/register", "7A", "10"] [123455] false false
      = (RegReply.alreadyRegistered, dbSchoolLevelOnly) ∧
    ∀ pin : String,
      find_by_pin
        (register_user dbSchoolLevelOnly "u1" ["/register", "7A", "10"] [123455] false false).2
        pin = none := by
  refine ⟨by decide, ?_⟩
  intro pin
  rfl

/-- C6 counterexample: the claim says a second register call with any
arguments whatsoever fails with already-registered, but the argument
checks run first: the fully registered identity u1 calling register
with no arguments gets the usage reply, not the already-registered
reply. -/
theorem second_register_any_args_cex :
    (register_user dbRegisteredU1 "u1" ["/register"] [] false false).1 = RegReply.usage ∧
    (register_user dbRegisteredU1 "u1" ["/register"] [] false false).1
      ≠ RegReply.alreadyRegistered := by
  exact ⟨by decide, by decide⟩

/-- C6 amended: a second register call whose command is well formed
(three tokens) and whose section and student number pass validation
for the recorded school level fails with already-registered and
changes no state; malformed or invalid arguments instead fail with the
corresponding usage or validation reply. -/
theorem second_register_valid_args_already_registered
    (db : DB) (uid cmd gs sn : String) (rand : List (Fin 1000000))
    (iF uF : Bool) (lvl : SchoolLevel)
    (hlvl : get_user_school_level db uid = some lvl)
    (hgs : gs ∈ (if lvl = SchoolLevel.ELEMENTARY then elementary_valid_sections
                 else middle_valid_sections))
    (hsn : valid_student_no sn = true) :
    register_user db uid [cmd, gs, sn] rand iF uF = (RegReply.alreadyRegistered, db) :=
  register_with_recorded_level_already_registered db uid cmd gs sn rand iF uF lvl hlvl hgs hsn

/-- Witness for the amended C6: the registered identity u1 retrying
with the valid arguments 7B and 5 is refused as already registered
with the state unchanged. -/
theorem second_register_valid_args_already_registered_witness :
    get_user_school_level dbRegisteredU1 "u1" = some SchoolLevel.MIDDLE ∧
    register_user dbRegisteredU1 "u1" ["/register", "7B", "5"] [] false false
      = (RegReply.alreadyRegistered, dbRegisteredU1) :=
  ⟨by decide,
   second_register_valid_args_already_registered dbRegisteredU1 "u1" "/register" "7B" "5"
     [] false false SchoolLevel.MIDDLE (by decide) (by decide) (by decide)⟩

/-- An empty result of the collision query means the candidate PIN is
not among the stored PINs. -/
lemma pin_fresh_of_filter_empty {db : DB} {pin : String}
    (h : (db.student_identifiers.filter (fun r => r.pin == pin)).isEmpty = true) :
    pin ∉ db.pins := by
  rw [List.isEmpty_iff, List.filter_eq_nil_iff] at h
  intro hmem
  obtain ⟨r, hr, hrp⟩ := List.mem_map.mp hmem
  exact h r hr (beq_iff_eq.mpr hrp)

/-- Every PIN returned by the retry loop is absent from the identifier
store it was checked against. -/
lemma genPinLoop_fresh (db : DB) :
    ∀ (l : List (Fin 1000000)) (pin : String),
      genPinLoop db l = some pin → pin ∉ db.pins := by
  intro l
  induction l with
  | nil => intro pin h; cases h
  | cons n rest ih =>
    intro pin h
    simp only [genPinLoop] at h
    split at h
    · cases h
      exact pin_fresh_of_filter_empty (by assumption)
    · exact ih pin h

/-- Every PIN returned by generate_unique_pin is absent from the
identifier store at the moment it is returned. -/
lemma generate_unique_pin_fresh (db : DB) (rand : List (Fin 1000000)) (pin : String)
    (h : generate_unique_pin db rand = some pin) : pin ∉ db.pins :=
  genPinLoop_fresh db (rand.take 100) pin h

/-- The user update leaves the identifier table untouched. -/
lemma sqlUpdateUser_pins (db : DB) (gs sn pin uid : String) :
    (sqlUpdateUser db gs sn pin uid).pins = db.pins := rfl

/-- The identifier insert appends exactly the new PIN. -/
lemma sqlInsertIdentifier_pins (db : DB) (pin gs sn uid lvl : String) :
    (sqlInsertIdentifier db pin gs sn uid lvl).pins = db.pins ++ [pin] := by
  simp [sqlInsertIdentifier, DB.pins]

/-- One persistence-block invocation preserves distinctness of the
stored PINs: either it leaves the identifier table unchanged, or it
appends a PIN that generate_unique_pin just checked to be fresh. -/
lemma register_persist_pins_nodup (db : DB) (uid gs sn : String) (lvl : SchoolLevel)
    (rand : List (Fin 1000000)) (iF uF : Bool) (h : db.pins.Nodup) :
    ((register_persist db uid gs sn lvl rand iF uF).2).pins.Nodup := by
  cases hg : generate_unique_pin db rand with
  | none =>
    simpa [register_persist, hg] using h
  | some pin =>
    have hfresh := generate_unique_pin_fresh db rand pin hg
    have hins : ((sqlInsertIdentifier db pin gs sn uid lvl.value).pins).Nodup := by
      rw [sqlInsertIdentifier_pins]
      simp [List.nodup_append, h, hfresh]
    cases iF with
    | true => simpa [register_persist, hg] using h
    | false =>
      cases uF with
      | true => simpa [register_persist, hg] using hins
      | false => simpa [register_persist, hg, sqlUpdateUser_pins] using hins

/-- C2: PIN uniqueness. Every PIN returned by PIN generation is absent
from the identifier store at the moment it is returned, and
consequently any sequence of registration persistence steps starting
from a store with pairwise distinct PINs (such as the empty store)
never produces two IdentifierRecords with equal PIN values. -/
theorem pin_uniqueness (db : DB) (h : db.pins.Nodup) :
    (∀ (rand : List (Fin 1000000)) (pin : String),
      generate_unique_pin db rand = some pin → pin ∉ db.pins) ∧
    ∀ calls : List PersistCall, ((runPersistCalls db calls).pins).Nodup := by
  constructor
  · exact fun rand pin hg => generate_unique_pin_fresh db rand pin hg
  · intro calls
    induction calls generalizing db with
    | nil => exact h
    | cons c rest ih =>
      exact ih _ (register_persist_pins_nodup db c.uid c.grade_section c.student_no
        c.level c.rand c.insertFails c.updateFails h)

/-- Witness for C2: starting from the empty store, two successful
registrations whose random streams collide on the first draw still end
with pairwise distinct stored PINs. -/
theorem pin_uniqueness_witness :
    (DB.pins ⟨[], []⟩).Nodup ∧
    ((runPersistCalls ⟨[], []⟩
        [⟨"u1", "7A", "10", SchoolLevel.MIDDLE, [0], false, false⟩,
         ⟨"u2", "7B", "11", SchoolLevel.MIDDLE, [0, 1], false, false⟩]).pins).Nodup :=
  ⟨by decide, (pin_uniqueness ⟨[], []⟩ (by decide)).2 _⟩

/-- C3 counterexample: the claim says no failure leaves an identifier
inserted without the matching user update, but when the identifier
insert commits and the user update then raises, the persistence block
reports failure while the inserted identifier remains and the users
table is unchanged — the two statements are separate transactions. -/
theorem register_persist_not_atomic_cex :
    (register_persist dbSchoolLevelOnly "u1" "7A" "10" SchoolLevel.MIDDLE [0] false true).1
      = PersistReply.failed ∧
    (register_persist dbSchoolLevelOnly "u1" "7A" "10" SchoolLevel.MIDDLE [0] false true).2
      ≠ dbSchoolLevelOnly ∧
    (register_persist dbSchoolLevelOnly "u1" "7A" "10" SchoolLevel.MIDDLE [0] false true).2.student_identifiers
      = [⟨"000000", "7A", "10", "u1", "middle"⟩] ∧
    (register_persist dbSchoolLevelOnly "u1" "7A" "10" SchoolLevel.MIDDLE [0] false true).2.users
      = dbSchoolLevelOnly.users := by
  refine ⟨by decide, by decide, by decide, by decide⟩

/-- C3 amended: failures of PIN generation or of the identifier insert
leave the state unchanged with the registration reported failed; but a
failure of the user update after the identifier insert has committed
reports failure while the inserted IdentifierRecord remains and the
users table is not updated — the two writes are separate
auto-committed statements, not one atomic transaction. -/
theorem register_persist_failure_semantics (db : DB) (uid gs sn : String)
    (lvl : SchoolLevel) (rand : List (Fin 1000000)) :
    (generate_unique_pin db rand = none →
      ∀ iF uF, register_persist db uid gs sn lvl rand iF uF = (PersistReply.failed, db)) ∧
    ∀ pin : String, generate_unique_pin db rand = some pin →
      (∀ uF, register_persist db uid gs sn lvl rand true uF = (PersistReply.failed, db)) ∧
      register_persist db uid gs sn lvl rand false true
        = (PersistReply.failed, sqlInsertIdentifier db pin gs sn uid lvl.value) ∧
      register_persist db uid gs sn lvl rand false false
        = (PersistReply.success pin,
           sqlUpdateUser (sqlInsertIdentifier db pin gs sn uid lvl.value) gs sn pin uid) := by
  constructor
  · intro hg iF uF
    simp [register_persist, hg]
  · intro pin hg
    refine ⟨fun uF => ?_, ?_, ?_⟩ <;> simp [register_persist, hg]

/-- Witness for the amended C3: at the concrete onboarded state with
random stream drawing 0, the update failure leaves the identifier row
000000 inserted while the registration is reported failed. -/
theorem register_persist_failure_semantics_witness :
    generate_unique_pin dbSchoolLevelOnly [0] = some "000000" ∧
    register_persist dbSchoolLevelOnly "u1" "7A" "10" SchoolLevel.MIDDLE [0] false true
      = (PersistReply.failed,
         sqlInsertIdentifier dbSchoolLevelOnly "000000" "7A" "10" "u1"
           SchoolLevel.MIDDLE.value) :=
  ⟨by decide,
   (((register_persist_failure_semantics dbSchoolLevelOnly "u1" "7A" "10"
       SchoolLevel.MIDDLE [0]).2 "000000" (by decide)).2).1⟩

/-- C4: with threshold 5 and window 60 seconds, an identity starting
with no recorded attempts is allowed on each of 5 checks within one
window, blocked on a 6th check within the same window, and allowed
again on a check made after the window has elapsed since every
recorded attempt. -/
theorem rate_limiter_scenario (u : String) (t1 t2 t3 t4 t5 t6 t7 : Int)
    (h12 : t1 ≤ t2) (h23 : t2 ≤ t3) (h34 : t3 ≤ t4) (h45 : t4 ≤ t5) (h56 : t5 ≤ t6)
    (hwin : t6 - t1 < 60) (helapsed : 60 ≤ t7 - t5) :
    (runLimiter rlInit [(u, t1), (u, t2), (u, t3), (u, t4), (u, t5), (u, t6), (u, t7)]).1
      = [false, false, false, false, false, true, false] := by
  have k21 : t2 - t1 < 60 := by omega
  have k31 : t3 - t1 < 60 := by omega
  have k32 : t3 - t2 < 60 := by omega
  have k41 : t4 - t1 < 60 := by omega
  have k42 : t4 - t2 < 60 := by omega
  have k43 : t4 - t3 < 60 := by omega
  have k51 : t5 - t1 < 60 := by omega
  have k52 : t5 - t2 < 60 := by omega
  have k53 : t5 - t3 < 60 := by omega
  have k54 : t5 - t4 < 60 := by omega
  have k62 : t6 - t2 < 60 := by omega
  have k63 : t6 - t3 < 60 := by omega
  have k64 : t6 - t4 < 60 := by omega
  have k65 : t6 - t5 < 60 := by omega
  have d1 : ¬ t7 - t1 < 60 := by omega
  have d2 : ¬ t7 - t2 < 60 := by omega
  have d3 : ¬ t7 - t3 < 60 := by omega
  have d4 : ¬ t7 - t4 < 60 := by omega
  have d5 : ¬ t7 - t5 < 60 := by omega
  simp [runLimiter, is_rate_limited, rlInit, RATE_LIMIT_max_attempts, RATE_LIMIT_period,
    Function.update_same, List.filter_cons, List.filter_nil,
    k21, k31, k32, k41, k42, k43, k51, k52, k53, k54, hwin, k62, k63, k64, k65,
    d1, d2, d3, d4, d5]

/-- Witness for C4 at concrete times 0, 10, 20, 30, 40, 50 and 100:
five allowed checks, a blocked sixth, and an allowed seventh. -/
theorem rate_limiter_scenario_witness :
    (runLimiter rlInit
        [("u", 0), ("u", 10), ("u", 20), ("u", 30), ("u", 40), ("u", 50), ("u", 100)]).1
      = [false, false, false, false, false, true, false] :=
  rate_limiter_scenario "u" 0 10 20 30 40 50 100 (by decide) (by decide) (by decide)
    (by decide) (by decide) (by decide) (by decide)

/-- One rate-limit check keeps every stored timestamp list within the
threshold: a blocked attempt is not recorded and shrinks the list to
its in-window part, and an allowed attempt appends to a list strictly
below the threshold. -/
lemma is_rate_limited_bound (st : RLState) (u : String) (now : Int)
    (h : ∀ v, (st v).length ≤ RATE_LIMIT_max_attempts) :
    ∀ v, (((is_rate_limited st u now).2) v).length ≤ RATE_LIMIT_max_attempts := by
  intro v
  unfold is_rate_limited
  by_cases hc : RATE_LIMIT_max_attempts ≤
      ((st u).filter (fun t => now - t < RATE_LIMIT_period)).length
  · rw [if_pos hc]
    dsimp only
    by_cases hv : v = u
    · subst hv
      rw [Function.update_same]
      exact le_trans (List.length_filter_le _ _) (h v)
    · rw [Function.update_noteq hv]
      exact h v
  · rw [if_neg hc]
    dsimp only
    by_cases hv : v = u
    · subst hv
      rw [Function.update_same]
      rw [List.length_append]
      simp only [List.length_singleton]
      unfold RATE_LIMIT_max_attempts at hc ⊢
      omega
    · rw [Function.update_noteq hv]
      exact h v

/-- C8: bounded memory of the rate limiter. After any sequence of
rate-limit checks starting from the empty attempt map, no identity
ever stores more than the threshold of 5 timestamps. -/
theorem rate_limiter_bounded_memory (calls : List (String × Int)) (uid : String) :
    (((runLimiter rlInit calls).2) uid).length ≤ RATE_LIMIT_max_attempts := by
  suffices haux : ∀ (cs : List (String × Int)) (st : RLState),
      (∀ v, (st v).length ≤ RATE_LIMIT_max_attempts) →
      ∀ v, (((runLimiter st cs).2) v).length ≤ RATE_LIMIT_max_attempts by
    exact haux calls rlInit (fun v => by simp [rlInit]) uid
  intro cs
  induction cs with
  | nil => intro st h v; exact h v
  | cons c rest ih =>
    intro st h v
    obtain ⟨cu, ct⟩ := c
    unfold runLimiter
    exact ih _ (is_rate_limited_bound st cu ct h) v

end SelamBot
